import Mathlib

/-!
Verification development for the eric-py binding layer.

The Python sources under `eric/` are shallowly embedded:

* `eric/versioning.py` — version detection from installation-path
  components, the registry of supported versions and their
  configurations.
* `eric/facade.py` — the `EricClient` session facade: construction-time
  version resolution and mismatch policy, the `_process` transaction
  wrapper with its buffer lifecycle, `send_xml`'s certificate-handle
  bracketing, and `close`'s shutdown behaviour.

The engine itself (the closed-source native library reached through
`eric/api.py`) is opaque; it is modelled as an `Engine` record of the
return codes and buffer texts it produces, and each facade operation is
embedded as a pure function returning its result together with the list
of FFI calls it performs, so that allocation/free and acquire/release
disciplines become provable statements about traces.
-/

namespace EricPy

/-! ### Version detection (eric/versioning.py, detect_eric_version)

Python scans the resolved ERIC_HOME path component names, leaf first,
for the first substring matching the regex `\d+\.\d+\.\d+\.\d+`.  A
path is embedded as its list of named components, root first, leaf
last.  The regex search is embedded directly: for this pattern the
backtracking search is deterministic (each `\d+` takes the maximal
digit run, then a literal dot must follow), and `re.search` tries
start positions left to right. -/

/-- Match the pattern `\d+\.\d+\.\d+\.\d+` anchored at the head of the
character list: four maximal nonempty digit runs separated by literal
dots.  Returns the matched characters (the capture group). -/
def matchVersionAt (cs : List Char) : Option (List Char) :=
  match cs.span Char.isDigit with
  | (d1, r1) =>
    if d1.isEmpty then none else
    match r1 with
    | '.' :: r1b =>
      match r1b.span Char.isDigit with
      | (d2, r2) =>
        if d2.isEmpty then none else
        match r2 with
        | '.' :: r2b =>
          match r2b.span Char.isDigit with
          | (d3, r3) =>
            if d3.isEmpty then none else
            match r3 with
            | '.' :: r3b =>
              match r3b.span Char.isDigit with
              | (d4, _) =>
                if d4.isEmpty then none
                else some (d1 ++ '.' :: (d2 ++ '.' :: (d3 ++ '.' :: d4)))
            | _ => none
        | _ => none
    | _ => none

/-- Leftmost match of the version pattern: try each start position in
turn, as `re.search` does. -/
def searchVersion : List Char → Option (List Char)
  | [] => none
  | c :: rest =>
    match matchVersionAt (c :: rest) with
    | some m => some m
    | none => searchVersion rest

/-- `pattern.search(component)` returning `match.group(1)` on a single
path-component name. -/
def findVersion (s : String) : Option String :=
  (searchVersion s.data).map String.mk

/-- Scan components in the given order, returning the first hit. -/
def detectFromComponents : List String → Option String
  | [] => none
  | c :: rest =>
    match findVersion c with
    | some v => some v
    | none => detectFromComponents rest

/-- `detect_eric_version`: components are given root first, leaf last;
the Python loop walks from the leaf upwards, so the scan order is the
reversed component list. -/
def detect_eric_version (home : List String) : Option String :=
  detectFromComponents home.reverse

/-! ### Version registry (eric/versioning.py) -/

/-- Configuration for a specific ERiC version family: fields
`eric_version`, `druck_param_version`, `crypto_param_version`. -/
structure EricVersionConfig where
  eric_version : String
  druck_param_version : Nat
  crypto_param_version : Nat
  deriving DecidableEq

/-- `SUPPORTED_ERIC_VERSIONS` tuple. -/
def SUPPORTED_ERIC_VERSIONS : List String := ["41.6.2.0"]

/-- `DEFAULT_ERIC_VERSION = SUPPORTED_ERIC_VERSIONS[0]`. -/
def DEFAULT_ERIC_VERSION : String := "41.6.2.0"

/-- `VERSION_CONFIGS` dict as an association list. -/
def VERSION_CONFIGS : List (String × EricVersionConfig) :=
  [("41.6.2.0", ⟨"41.6.2.0", 4, 3⟩)]

/-- `VERSION_CONFIGS.get(key, VERSION_CONFIGS[DEFAULT_ERIC_VERSION])`:
lookup with fallback to the default version's configuration. -/
def version_configs_get (key : String) : EricVersionConfig :=
  match VERSION_CONFIGS.lookup key with
  | some c => c
  | none =>
    match VERSION_CONFIGS.lookup DEFAULT_ERIC_VERSION with
    | some c => c
    | none => ⟨DEFAULT_ERIC_VERSION, 4, 3⟩

/-- `is_supported_version`. -/
def is_supported_version (version : String) : Bool :=
  SUPPORTED_ERIC_VERSIONS.contains version

/-! ### FFI surface model (eric/api.py via eric/facade.py)

The engine is opaque.  An `Engine` record fixes the observable
behaviour of one run: the return code of each entry point, the texts
the engine writes into the two output buffers, the value it writes
through the transfer-handle pointer, and its error-text catalog.  Each
facade operation returns its Python result (`Except` models a raised
exception) paired with the ordered list of FFI calls it performed. -/

/-- One call across the FFI boundary, as observed in a trace.  Buffer
ids 0 and 1 are the validation-text and server-text buffers of a
single `_process` invocation. -/
inductive FfiCall where
  | createBuffer (id : Nat)
  | bearbeiteVorgang (rc : Int)
  | getErrorText (rc : Int)
  | readBuffer (id : Nat)
  | freeBuffer (id : Nat)
  | getHandleToCertificate (rc : Int)
  | closeHandleToCertificate (handle : Nat) (rc : Int)
  | shutdownEric (rc : Int)
  deriving DecidableEq

/-- Modelled from the spec: `eric/errors.py` (not under `src/`) defines
the engine-error exception carrying the raw return code and the
engine-supplied message (spec section 4.3, confirmed by
`tests/test_errors.py`). -/
structure EricError where
  code : Int
  message : Option String
  deriving DecidableEq

/-- `EricResult` dataclass from eric/facade.py. -/
structure EricResult where
  code : Int
  validation_response : String
  server_response : String
  transfer_handle : Option Nat
  deriving DecidableEq

/-- Modelled from the spec: `check_eric_result` from `eric/errors.py`
(not under `src/`).  Spec section 4.3: the success code 0 is the only
code that does not raise; every nonzero code raises the engine error
carrying that exact code and the message. -/
def check_eric_result (rc : Int) (message : Option String) : Except EricError Unit :=
  if rc = 0 then Except.ok () else Except.error ⟨rc, message⟩

/-- Observable behaviour of the opaque engine for one run: return
codes of the entry points the facade calls, buffer texts (already
UTF-8-decoded with replacement, which is total), the update the engine
applies to a supplied transfer-handle value, the certificate handle
and PIN-info values it writes back, and its error-text catalog. -/
structure Engine where
  processRc : Int
  validationText : String
  serverText : String
  transferUpdate : Nat → Nat
  errorText : Int → Option String
  certRc : Int
  certHandle : Nat
  certPinInfo : Nat
  closeCertRc : Int
  shutdownRc : Int

/-- `EricClient._process`: allocate the two buffers, call
`EricBearbeiteVorgang`, fetch the error text, run `check_eric_result`
(raising on a nonzero code), only then read both buffers and build the
`EricResult`; the `finally` block frees both buffers on every path.
The transfer-handle holder is allocated only when the caller supplied
a handle, and its (engine-updated) value is read back only in that
case. -/
def process (eng : Engine) (transfer_handle : Option Nat) :
    Except EricError EricResult × List FfiCall :=
  let rc := eng.processRc
  let preCalls := [FfiCall.createBuffer 0, FfiCall.createBuffer 1,
                   FfiCall.bearbeiteVorgang rc, FfiCall.getErrorText rc]
  let postCalls := [FfiCall.freeBuffer 0, FfiCall.freeBuffer 1]
  match check_eric_result rc (eng.errorText rc) with
  | Except.error e => (Except.error e, preCalls ++ postCalls)
  | Except.ok _ =>
    (Except.ok ⟨rc, eng.validationText, eng.serverText,
                transfer_handle.map eng.transferUpdate⟩,
     preCalls ++ [FfiCall.readBuffer 0, FfiCall.readBuffer 1] ++ postCalls)

/-- `EricClient.validate_xml`: drives `_process` with no crypto
parameters and no transfer handle.  The xml text, data-kind version
and optional pdf path only affect the opaque engine call, not the
modelled observables. -/
def validate_xml (eng : Engine) (_xml_text _datenart_version : String)
    (_pdf_path : Option String) : Except EricError EricResult × List FfiCall :=
  process eng none

/-- `EricClient._load_certificate`: call
`EricGetHandleToCertificate`, fetch the error text, run
`check_eric_result` (raising on a nonzero code), and return the handle
together with the PIN-support info value. -/
def load_certificate (eng : Engine) :
    Except EricError (Nat × Nat) × List FfiCall :=
  let rc := eng.certRc
  let calls := [FfiCall.getHandleToCertificate rc, FfiCall.getErrorText rc]
  match check_eric_result rc (eng.errorText rc) with
  | Except.error e => (Except.error e, calls)
  | Except.ok _ => (Except.ok (eng.certHandle, eng.certPinInfo), calls)

/-- `EricClient.send_xml`: acquire the certificate handle (an
acquisition failure propagates before any transaction call), then run
`_process` inside `try`/`finally` whose `finally` always performs one
`EricCloseHandleToCertificate` call; that call's return code is
ignored, so it never affects the propagated result. -/
def send_xml (eng : Engine) (_xml_text _datenart_version : String)
    (_pdf_path : Option String) (transfer_handle : Option Nat) :
    Except EricError EricResult × List FfiCall :=
  match load_certificate eng with
  | (Except.error e, certCalls) => (Except.error e, certCalls)
  | (Except.ok (cert_handle, _info), certCalls) =>
    match process eng transfer_handle with
    | (res, procCalls) =>
      (res, certCalls ++ procCalls ++
            [FfiCall.closeHandleToCertificate cert_handle eng.closeCertRc])

/-! ### Session construction (eric/facade.py, EricClient.__init__) -/

/-- Mismatch conditions checked at construction, in source order. -/
inductive MismatchKind where
  | expectedEnvDiffers
  | detectedDiffers
  | unsupportedVersion
  deriving DecidableEq

/-- Inputs to `EricClient.__init__` that the embedding tracks: the
resolved installation-root path (as its component list), the explicit
`eric_version` argument, and the two environment variables read by the
constructor. -/
structure ClientConfig where
  eric_home : List String
  eric_version : Option String
  env_expected : Option String
  env_policy : Option String
  deriving DecidableEq

/-- State held by a constructed `EricClient` that the claims mention:
the detected version, the chosen version key (a local in Python,
observable through the configuration lookup and the mismatch
messages), the selected version configuration, the `_initialized`
flag, and the warnings printed by `_handle_mismatch`. -/
structure ClientState where
  detected_eric_version : Option String
  version_key : String
  version_config : EricVersionConfig
  initialized : Bool
  warnings : List MismatchKind
  deriving DecidableEq

/-- `str.lower()` on the ASCII policy strings the constructor
compares against. -/
def strLower (s : String) : String := String.mk (s.data.map Char.toLower)

/-- Python `a or b` on an optional string: falls through on `None` and
on the empty (falsy) string. -/
def pyOrString (a : Option String) (b : String) : String :=
  match a with
  | some s => if s = "" then b else s
  | none => b

/-- `os.environ.get("ERIC_VERSION_POLICY", "warn").lower()`. -/
def policyOf (cfg : ClientConfig) : String :=
  strLower (cfg.env_policy.getD ("warn"))

/-- `version_key = eric_version or detected_version or
DEFAULT_ERIC_VERSION`. -/
def resolvedVersionKey (cfg : ClientConfig) : String :=
  pyOrString cfg.eric_version
    (pyOrString (detect_eric_version cfg.eric_home) DEFAULT_ERIC_VERSION)

/-- First check: `expected_env and version_key != expected_env`
(`expected_env` falsy — absent or empty — skips the check). -/
def mismatchExpected (cfg : ClientConfig) : Bool :=
  match cfg.env_expected with
  | some e => e != "" && resolvedVersionKey cfg != e
  | none => false

/-- Second check: `detected_version and detected_version !=
version_key`. -/
def mismatchDetected (cfg : ClientConfig) : Bool :=
  match detect_eric_version cfg.eric_home with
  | some d => d != "" && d != resolvedVersionKey cfg
  | none => false

/-- Third check: `version_key not in SUPPORTED_ERIC_VERSIONS`. -/
def mismatchUnsupported (cfg : ClientConfig) : Bool :=
  ! SUPPORTED_ERIC_VERSIONS.contains (resolvedVersionKey cfg)

/-- The mismatch checks that fire, in the order the constructor runs
them. -/
def activeMismatches (cfg : ClientConfig) : List MismatchKind :=
  (if mismatchExpected cfg then [MismatchKind.expectedEnvDiffers] else []) ++
  (if mismatchDetected cfg then [MismatchKind.detectedDiffers] else []) ++
  (if mismatchUnsupported cfg then [MismatchKind.unsupportedVersion] else [])

/-- The state `__init__` leaves behind when it does not raise:
`_initialized = False`, detected version stored, and the version
configuration looked up with fallback to the default's entry. -/
def mkClientState (cfg : ClientConfig) (warnings : List MismatchKind) : ClientState :=
  ⟨detect_eric_version cfg.eric_home, resolvedVersionKey cfg,
   version_configs_get (resolvedVersionKey cfg), false, warnings⟩

/-- `EricClient.__init__` after path resolution: run the three checks
in order under `_handle_mismatch` — `strict` raises the library-load
configuration error at the first firing check, `warn` prints a warning
for each firing check and continues, any other policy continues
silently.  An `Except.error` models the raised
`EricLibraryLoadError` (the spec's ConfigurationError for a
strict-policy mismatch). -/
def mkClient (cfg : ClientConfig) : Except MismatchKind ClientState :=
  if policyOf cfg = "strict" then
    match activeMismatches cfg with
    | m :: _ => Except.error m
    | [] => Except.ok (mkClientState cfg [])
  else
    Except.ok (mkClientState cfg
      (if policyOf cfg = "warn" then activeMismatches cfg else []))

/-- `EricClient.__init__` performs no FFI call: the constructor only
resolves paths, reads the environment and selects a configuration; no
`api` function is invoked before `initialize`. -/
def mkClientCalls (_cfg : ClientConfig) : List FfiCall := []

/-- `EricClient.close`: a no-op when `_initialized` is false;
otherwise call `shutdown_eric`, fetch the error text and run
`check_eric_result` — only when that check passes is `_initialized`
reset to false. -/
def close (eng : Engine) (s : ClientState) :
    Except EricError Unit × ClientState × List FfiCall :=
  if s.initialized = false then (Except.ok (), s, [])
  else
    let rc := eng.shutdownRc
    let calls := [FfiCall.shutdownEric rc, FfiCall.getErrorText rc]
    match check_eric_result rc (eng.errorText rc) with
    | Except.error e => (Except.error e, s, calls)
    | Except.ok _ =>
      (Except.ok (),
       ⟨s.detected_eric_version, s.version_key, s.version_config, false, s.warnings⟩,
       calls)

/-! ### Trace observations -/

/-- Recognize a buffer allocation. -/
def isCreateBuffer : FfiCall → Bool
  | FfiCall.createBuffer _ => true
  | _ => false

/-- Recognize a buffer free. -/
def isFreeBuffer : FfiCall → Bool
  | FfiCall.freeBuffer _ => true
  | _ => false

/-- Recognize a buffer read (the decode step). -/
def isReadBuffer : FfiCall → Bool
  | FfiCall.readBuffer _ => true
  | _ => false

/-- Recognize the transaction entry point. -/
def isBearbeiteVorgang : FfiCall → Bool
  | FfiCall.bearbeiteVorgang _ => true
  | _ => false

/-- Recognize a certificate-handle release. -/
def isCloseCertificate : FfiCall → Bool
  | FfiCall.closeHandleToCertificate _ _ => true
  | _ => false

/-- Recognize the shutdown entry point. -/
def isShutdownEric : FfiCall → Bool
  | FfiCall.shutdownEric _ => true
  | _ => false

/-- Number of buffer allocations in a trace. -/
def createCount (t : List FfiCall) : Nat := t.countP isCreateBuffer

/-- Number of buffer frees in a trace. -/
def freeCount (t : List FfiCall) : Nat := t.countP isFreeBuffer

/-- Number of buffer reads in a trace. -/
def readCount (t : List FfiCall) : Nat := t.countP isReadBuffer

/-- Number of transaction calls in a trace. -/
def bearbeiteCount (t : List FfiCall) : Nat := t.countP isBearbeiteVorgang

/-- Number of certificate-handle releases in a trace. -/
def closeCertCount (t : List FfiCall) : Nat := t.countP isCloseCertificate

/-- Number of shutdown calls in a trace. -/
def shutdownCount (t : List FfiCall) : Nat := t.countP isShutdownEric

/-- Replace only the return code of the certificate-release call,
leaving every other behaviour of the engine unchanged. -/
def withCloseCertRc (eng : Engine) (rc : Int) : Engine :=
  ⟨eng.processRc, eng.validationText, eng.serverText, eng.transferUpdate,
   eng.errorText, eng.certRc, eng.certHandle, eng.certPinInfo, rc,
   eng.shutdownRc⟩

/-! ### Concrete engine behaviours and configurations for witnesses -/

/-- An engine run where every call succeeds. -/
def engAllOk : Engine :=
  ⟨0, "vtext", "stext", fun n => n + 1, fun _ => none, 0, 7, 2, 0, 0⟩

/-- An engine run whose transaction call returns the nonzero code 1
while writing diagnostic text into both buffers. -/
def engProcFail : Engine :=
  ⟨1, "diag", "sdiag", fun n => n, fun _ => some ("boom"), 0, 7, 2, 0, 0⟩

/-- An engine run whose certificate acquisition fails with code 5. -/
def engCertFail : Engine :=
  ⟨0, "vtext", "stext", fun n => n, fun _ => some ("nocert"), 5, 0, 0, 0, 0⟩

/-- An engine run whose shutdown call fails with code 3. -/
def engShutdownFail : Engine :=
  ⟨0, "vtext", "stext", fun n => n, fun _ => some ("shutfail"), 0, 7, 2, 0, 3⟩

/-- A client state that is Initialized. -/
def stateInit : ClientState :=
  ⟨some ("41.6.2.0"), "41.6.2.0", ⟨"41.6.2.0", 4, 3⟩, true, []⟩

/-- A construction input with a mismatching expected-version
environment variable. -/
def cfgMismatch (policy : Option String) : ClientConfig :=
  ⟨["opt", "ERiC-41.6.2.0", "Linux-x86_64"], none, some ("40.0.0.0"), policy⟩

/-- A construction input with no mismatch at all. -/
def cfgClean : ClientConfig :=
  ⟨["opt", "ERiC-41.6.2.0", "Linux-x86_64"], none, none, none⟩

/-! ### Helper lemmas -/

/-- Scanning components none of which contains a version substring
yields nothing. -/
theorem detectFromComponents_eq_none (l : List String)
    (h : ∀ c ∈ l, findVersion c = none) : detectFromComponents l = none := by
  induction l with
  | nil => rfl
  | cons c rest ih =>
    have hc : findVersion c = none := h c (List.mem_cons_self c rest)
    simp only [detectFromComponents, hc]
    exact ih fun d hd => h d (List.mem_cons_of_mem c hd)

/-- A matchless block of components at the front of the scan is
skipped. -/
theorem detectFromComponents_append_none (l1 l2 : List String)
    (h : ∀ c ∈ l1, findVersion c = none) :
    detectFromComponents (l1 ++ l2) = detectFromComponents l2 := by
  induction l1 with
  | nil => rfl
  | cons c rest ih =>
    have hc : findVersion c = none := h c (List.mem_cons_self c rest)
    simp only [List.cons_append, detectFromComponents, hc]
    exact ih fun d hd => h d (List.mem_cons_of_mem c hd)

/-- Shape of `_process` on a successful transaction call. -/
theorem process_of_rc_zero (eng : Engine) (th : Option Nat)
    (h : eng.processRc = 0) :
    process eng th =
      (Except.ok ⟨0, eng.validationText, eng.serverText,
         th.map eng.transferUpdate⟩,
       [FfiCall.createBuffer 0, FfiCall.createBuffer 1,
        FfiCall.bearbeiteVorgang 0, FfiCall.getErrorText 0,
        FfiCall.readBuffer 0, FfiCall.readBuffer 1,
        FfiCall.freeBuffer 0, FfiCall.freeBuffer 1]) := by
  simp [process, check_eric_result, h]

/-- Shape of `_process` on a failing transaction call. -/
theorem process_of_rc_nonzero (eng : Engine) (th : Option Nat)
    (h : eng.processRc ≠ 0) :
    process eng th =
      (Except.error ⟨eng.processRc, eng.errorText eng.processRc⟩,
       [FfiCall.createBuffer 0, FfiCall.createBuffer 1,
        FfiCall.bearbeiteVorgang eng.processRc,
        FfiCall.getErrorText eng.processRc,
        FfiCall.freeBuffer 0, FfiCall.freeBuffer 1]) := by
  simp [process, check_eric_result, h]

/-- Shape of `_load_certificate` on success. -/
theorem load_certificate_of_rc_zero (eng : Engine) (h : eng.certRc = 0) :
    load_certificate eng =
      (Except.ok (eng.certHandle, eng.certPinInfo),
       [FfiCall.getHandleToCertificate 0, FfiCall.getErrorText 0]) := by
  simp [load_certificate, check_eric_result, h]

/-- Shape of `_load_certificate` on failure. -/
theorem load_certificate_of_rc_nonzero (eng : Engine) (h : eng.certRc ≠ 0) :
    load_certificate eng =
      (Except.error ⟨eng.certRc, eng.errorText eng.certRc⟩,
       [FfiCall.getHandleToCertificate eng.certRc,
        FfiCall.getErrorText eng.certRc]) := by
  simp [load_certificate, check_eric_result, h]

/-- `send_xml` under a successful certificate acquisition: the result
is that of `_process`, and the trace brackets the `_process` calls
between acquisition and the single release. -/
theorem send_xml_of_cert_ok (eng : Engine) (xml dav : String)
    (pdf : Option String) (th : Option Nat) (h : eng.certRc = 0) :
    send_xml eng xml dav pdf th =
      ((process eng th).1,
       [FfiCall.getHandleToCertificate 0, FfiCall.getErrorText 0] ++
         (process eng th).2 ++
         [FfiCall.closeHandleToCertificate eng.certHandle eng.closeCertRc]) := by
  rw [send_xml, load_certificate_of_rc_zero eng h]

/-- `send_xml` under a failing certificate acquisition: the error
propagates and nothing beyond the acquisition attempt happens. -/
theorem send_xml_of_cert_fail (eng : Engine) (xml dav : String)
    (pdf : Option String) (th : Option Nat) (h : eng.certRc ≠ 0) :
    send_xml eng xml dav pdf th =
      (Except.error ⟨eng.certRc, eng.errorText eng.certRc⟩,
       [FfiCall.getHandleToCertificate eng.certRc,
        FfiCall.getErrorText eng.certRc]) := by
  rw [send_xml, load_certificate_of_rc_nonzero eng h]

/-! ### Claims -/

/-- C3: for every path whose components (scanned closest to leaf
first) contain a four-numeric-group version substring, detection
returns the match from the component nearest to the leaf; for every
path with no such substring anywhere in its ancestry it returns none;
and the three example paths behave as stated. -/
theorem detect_version_nearest_leaf (home pre suf : List String) (c v : String) :
    ((∀ d ∈ home, findVersion d = none) → detect_eric_version home = none) ∧
    (home = pre ++ c :: suf → findVersion c = some v →
      (∀ d ∈ suf, findVersion d = none) → detect_eric_version home = some v) ∧
    detect_eric_version ["opt", "ERiC-41.6.2.0", "Linux-x86_64"] = some ("41.6.2.0") ∧
    detect_eric_version ["opt", "eric", "41.6.2.0", "Linux-x86_64"] = some ("41.6.2.0") ∧
    detect_eric_version ["opt", "eric", "Linux-x86_64"] = none := by
  refine ⟨?_, ?_, by decide, by decide, by decide⟩
  · intro h
    exact detectFromComponents_eq_none home.reverse
      fun d hd => h d (List.mem_reverse.mp hd)
  · intro hh hc hs
    subst hh
    rw [detect_eric_version, List.reverse_append, List.reverse_cons]
    rw [List.append_assoc]
    rw [detectFromComponents_append_none suf.reverse _
      fun d hd => hs d (List.mem_reverse.mp hd)]
    simp only [List.singleton_append, detectFromComponents, hc]

/-- Witness for C3 at a concrete path with the version substring on
an interior component and a matchless leaf below it. -/
theorem detect_version_nearest_leaf_witness :
    detect_eric_version ["usr", "lib", "ERiC-39.1.0.2", "bin"] = some ("39.1.0.2") :=
  (detect_version_nearest_leaf ["usr", "lib", "ERiC-39.1.0.2", "bin"]
    ["usr", "lib"] ["bin"] ("ERiC-39.1.0.2") ("39.1.0.2")).2.1
    rfl (by decide) (by decide)

/-- C1 counterexample: on a transaction call returning the nonzero
code 1, `check_eric_result` raises before either buffer is read, so
no decoding occurs and no Result is produced — the claim that
decoding still occurs on a non-success code is false. -/
theorem decode_on_error_cex :
    (validate_xml engProcFail ("x") ("d") none).1 =
      Except.error ⟨1, some ("boom")⟩ ∧
    readCount (validate_xml engProcFail ("x") ("d") none).2 = 0 :=
  ⟨rfl, rfl⟩

/-- C1 (amended): both buffers are decoded into the Result only after
the return code is confirmed to be the success code 0; on a nonzero
code the engine error propagates before any buffer read, so no
decoding occurs and no Result carries the diagnostic text.  The
validation and send operations both go through this `_process`
behaviour. -/
theorem decode_only_after_success (eng : Engine) (th : Option Nat)
    (xml dav : String) (pdf : Option String) :
    (eng.processRc = 0 →
      (process eng th).2 =
        [FfiCall.createBuffer 0, FfiCall.createBuffer 1,
         FfiCall.bearbeiteVorgang 0, FfiCall.getErrorText 0,
         FfiCall.readBuffer 0, FfiCall.readBuffer 1,
         FfiCall.freeBuffer 0, FfiCall.freeBuffer 1] ∧
      (∃ r, (process eng th).1 = Except.ok r ∧
        r.validation_response = eng.validationText ∧
        r.server_response = eng.serverText)) ∧
    (eng.processRc ≠ 0 →
      readCount (process eng th).2 = 0 ∧
      (process eng th).1 =
        Except.error ⟨eng.processRc, eng.errorText eng.processRc⟩) ∧
    validate_xml eng xml dav pdf = process eng none ∧
    (eng.certRc = 0 →
      readCount (send_xml eng xml dav pdf th).2 =
        readCount (process eng th).2) := by
  refine ⟨?_, ?_, rfl, ?_⟩
  · intro h
    rw [process_of_rc_zero eng th h]
    exact ⟨rfl, ⟨_, rfl, rfl, rfl⟩⟩
  · intro h
    rw [process_of_rc_nonzero eng th h]
    exact ⟨rfl, rfl⟩
  · intro h
    rcases eq_or_ne eng.processRc 0 with hp | hp
    · rw [send_xml_of_cert_ok eng xml dav pdf th h, process_of_rc_zero eng th hp]
      rfl
    · rw [send_xml_of_cert_ok eng xml dav pdf th h,
        process_of_rc_nonzero eng th hp]
      rfl

/-- Witness for the amended C1 at the failing engine run: no buffer
read appears in the trace and the raised error carries the code. -/
theorem decode_only_after_success_witness :
    readCount (process engProcFail none).2 = 0 ∧
    (process engProcFail none).1 =
      Except.error ⟨engProcFail.processRc,
        engProcFail.errorText engProcFail.processRc⟩ :=
  (decode_only_after_success engProcFail none ("x") ("d") none).2.1 (by decide)

/-- C6: every `validate` invocation allocates exactly two buffers and
frees exactly two, whatever the transaction return code; a `send`
invocation does the same whenever its certificate acquisition succeeds
(when acquisition fails the transaction stage is never reached and no
buffer is allocated or freed), and allocations always balance frees. -/
theorem buffer_alloc_free_two (eng : Engine) (th : Option Nat)
    (xml dav : String) (pdf : Option String) :
    createCount (validate_xml eng xml dav pdf).2 = 2 ∧
    freeCount (validate_xml eng xml dav pdf).2 = 2 ∧
    (eng.certRc = 0 →
      createCount (send_xml eng xml dav pdf th).2 = 2 ∧
      freeCount (send_xml eng xml dav pdf th).2 = 2) ∧
    (eng.certRc ≠ 0 →
      createCount (send_xml eng xml dav pdf th).2 = 0 ∧
      freeCount (send_xml eng xml dav pdf th).2 = 0) ∧
    createCount (send_xml eng xml dav pdf th).2 =
      freeCount (send_xml eng xml dav pdf th).2 := by
  have hv0 : createCount (process eng none).2 = 2 ∧
      freeCount (process eng none).2 = 2 := by
    rcases eq_or_ne eng.processRc 0 with h | h
    · rw [process_of_rc_zero eng none h]; exact ⟨rfl, rfl⟩
    · rw [process_of_rc_nonzero eng none h]; exact ⟨rfl, rfl⟩
  refine ⟨hv0.1, hv0.2, ?_, ?_, ?_⟩
  · intro h
    rcases eq_or_ne eng.processRc 0 with hp | hp
    · rw [send_xml_of_cert_ok eng xml dav pdf th h, process_of_rc_zero eng th hp]
      exact ⟨rfl, rfl⟩
    · rw [send_xml_of_cert_ok eng xml dav pdf th h,
        process_of_rc_nonzero eng th hp]
      exact ⟨rfl, rfl⟩
  · intro h
    rw [send_xml_of_cert_fail eng xml dav pdf th h]
    exact ⟨rfl, rfl⟩
  · rcases eq_or_ne eng.certRc 0 with h | h
    · rcases eq_or_ne eng.processRc 0 with hp | hp
      · rw [send_xml_of_cert_ok eng xml dav pdf th h,
          process_of_rc_zero eng th hp]
        rfl
      · rw [send_xml_of_cert_ok eng xml dav pdf th h,
          process_of_rc_nonzero eng th hp]
        rfl
    · rw [send_xml_of_cert_fail eng xml dav pdf th h]
      rfl

/-- Witness for C6: with the failing transaction engine, a `send`
still allocates two buffers and frees two. -/
theorem buffer_alloc_free_two_witness :
    createCount (send_xml engProcFail ("x") ("d") none none).2 = 2 ∧
    freeCount (send_xml engProcFail ("x") ("d") none none).2 = 2 :=
  (buffer_alloc_free_two engProcFail none ("x") ("d") none).2.2.1 (by decide)

/-- C2: when certificate acquisition fails, `send_xml` propagates the
acquisition error without any transaction call and without any
handle-release call; when acquisition succeeds, exactly one release
call occurs and it is placed in the trace after the transaction stage
and before the (possibly failing) result propagates; the release
call's return code never changes the propagated result. -/
theorem send_certificate_bracketing (eng : Engine) (th : Option Nat)
    (xml dav : String) (pdf : Option String) :
    (eng.certRc ≠ 0 →
      (send_xml eng xml dav pdf th).1 =
        Except.error ⟨eng.certRc, eng.errorText eng.certRc⟩ ∧
      bearbeiteCount (send_xml eng xml dav pdf th).2 = 0 ∧
      closeCertCount (send_xml eng xml dav pdf th).2 = 0) ∧
    (eng.certRc = 0 →
      (send_xml eng xml dav pdf th).2 =
        [FfiCall.getHandleToCertificate 0, FfiCall.getErrorText 0] ++
          (process eng th).2 ++
          [FfiCall.closeHandleToCertificate eng.certHandle eng.closeCertRc] ∧
      closeCertCount (send_xml eng xml dav pdf th).2 = 1 ∧
      (eng.processRc ≠ 0 →
        (send_xml eng xml dav pdf th).1 =
          Except.error ⟨eng.processRc, eng.errorText eng.processRc⟩)) ∧
    (∀ rc2, (send_xml (withCloseCertRc eng rc2) xml dav pdf th).1 =
      (send_xml eng xml dav pdf th).1) := by
  refine ⟨?_, ?_, ?_⟩
  · intro h
    rw [send_xml_of_cert_fail eng xml dav pdf th h]
    exact ⟨rfl, rfl, rfl⟩
  · intro h
    refine ⟨?_, ?_, ?_⟩
    · rw [send_xml_of_cert_ok eng xml dav pdf th h]
    · rcases eq_or_ne eng.processRc 0 with hp | hp
      · rw [send_xml_of_cert_ok eng xml dav pdf th h,
          process_of_rc_zero eng th hp]
        rfl
      · rw [send_xml_of_cert_ok eng xml dav pdf th h,
          process_of_rc_nonzero eng th hp]
        rfl
    · intro hp
      rw [send_xml_of_cert_ok eng xml dav pdf th h,
        process_of_rc_nonzero eng th hp]
  · intro rc2
    rcases eq_or_ne eng.certRc 0 with h | h
    · rcases eq_or_ne eng.processRc 0 with hp | hp
      · rw [send_xml_of_cert_ok eng xml dav pdf th h,
          send_xml_of_cert_ok (withCloseCertRc eng rc2) xml dav pdf th h,
          process_of_rc_zero eng th hp,
          process_of_rc_zero (withCloseCertRc eng rc2) th hp]
        rfl
      · rw [send_xml_of_cert_ok eng xml dav pdf th h,
          send_xml_of_cert_ok (withCloseCertRc eng rc2) xml dav pdf th h,
          process_of_rc_nonzero eng th hp,
          process_of_rc_nonzero (withCloseCertRc eng rc2) th hp]
        rfl
    · rw [send_xml_of_cert_fail eng xml dav pdf th h,
        send_xml_of_cert_fail (withCloseCertRc eng rc2) xml dav pdf th h]
      rfl

/-- Witness for C2: with the failing transaction engine the handle is
still released exactly once and the transaction error propagates. -/
theorem send_certificate_bracketing_witness :
    closeCertCount (send_xml engProcFail ("x") ("d") none none).2 = 1 ∧
    (send_xml engProcFail ("x") ("d") none none).1 =
      Except.error ⟨engProcFail.processRc,
        engProcFail.errorText engProcFail.processRc⟩ := by
  have h := (send_certificate_bracketing engProcFail none ("x") ("d") none).2.1
    (by decide)
  exact ⟨h.2.1, h.2.2 (by decide)⟩

/-- C9: every `EricResult` actually returned by `validate_xml` or
`send_xml` carries return code 0, because the return code is checked
(raising on nonzero) before the result is constructed. -/
theorem result_code_zero (eng : Engine) (th : Option Nat)
    (xml dav : String) (pdf : Option String) :
    (∀ r, (validate_xml eng xml dav pdf).1 = Except.ok r → r.code = 0) ∧
    (∀ r, (send_xml eng xml dav pdf th).1 = Except.ok r → r.code = 0) := by
  have hproc : ∀ th2 r, (process eng th2).1 = Except.ok r → r.code = 0 := by
    intro th2 r hr
    rcases eq_or_ne eng.processRc 0 with h | h
    · rw [process_of_rc_zero eng th2 h] at hr
      cases hr
      rfl
    · rw [process_of_rc_nonzero eng th2 h] at hr
      cases hr
  constructor
  · exact fun r hr => hproc none r hr
  · intro r hr
    rcases eq_or_ne eng.certRc 0 with h | h
    · rw [send_xml_of_cert_ok eng xml dav pdf th h] at hr
      exact hproc th r hr
    · rw [send_xml_of_cert_fail eng xml dav pdf th h] at hr
      cases hr

/-- Witness for C9 at the all-success engine run. -/
theorem result_code_zero_witness :
    (⟨0, ("vtext"), ("stext"), none⟩ : EricResult).code = 0 :=
  (result_code_zero engAllOk none ("x") ("d") none).1
    ⟨0, ("vtext"), ("stext"), none⟩ rfl

/-- C10: whenever the caller omits the transfer handle (every
`validate_xml` call, and every `send_xml` call with `transfer_handle
= None`), the returned Result's transfer handle is `None`; only when
the caller supplies a prior handle is the engine-updated value read
back into the Result. -/
theorem omitted_transfer_handle_stays_none (eng : Engine)
    (xml dav : String) (pdf : Option String) :
    (∀ r, (validate_xml eng xml dav pdf).1 = Except.ok r →
      r.transfer_handle = none) ∧
    (∀ r, (send_xml eng xml dav pdf none).1 = Except.ok r →
      r.transfer_handle = none) ∧
    (∀ t r, (send_xml eng xml dav pdf (some t)).1 = Except.ok r →
      r.transfer_handle = some (eng.transferUpdate t)) := by
  have hproc : ∀ (th : Option Nat) r, (process eng th).1 = Except.ok r →
      r.transfer_handle = th.map eng.transferUpdate := by
    intro th r hr
    rcases eq_or_ne eng.processRc 0 with h | h
    · rw [process_of_rc_zero eng th h] at hr
      cases hr
      rfl
    · rw [process_of_rc_nonzero eng th h] at hr
      cases hr
  have hsend : ∀ (th : Option Nat) r, (send_xml eng xml dav pdf th).1 = Except.ok r →
      r.transfer_handle = th.map eng.transferUpdate := by
    intro th r hr
    rcases eq_or_ne eng.certRc 0 with h | h
    · rw [send_xml_of_cert_ok eng xml dav pdf th h] at hr
      exact hproc th r hr
    · rw [send_xml_of_cert_fail eng xml dav pdf th h] at hr
      cases hr
  exact ⟨fun r hr => hproc none r hr,
         fun r hr => hsend none r hr,
         fun t r hr => hsend (some t) r hr⟩

/-- Witness for C10: the all-success engine run with a supplied prior
handle 4 returns the engine-updated value. -/
theorem omitted_transfer_handle_stays_none_witness :
    (⟨0, ("vtext"), ("stext"), some 5⟩ : EricResult).transfer_handle =
      some (engAllOk.transferUpdate 4) :=
  (omitted_transfer_handle_stays_none engAllOk ("x") ("d") none).2.2 4
    ⟨0, ("vtext"), ("stext"), some 5⟩ rfl

/-- C4: under the strict version-mismatch policy each of the three
mismatch conditions makes `__init__` raise the library-load
configuration error, and the constructor performs no engine call at
all, so the error precedes any engine interaction. -/
theorem strict_policy_raises (cfg : ClientConfig)
    (hp : policyOf cfg = "strict")
    (hm : mismatchExpected cfg = true ∨ mismatchDetected cfg = true ∨
          mismatchUnsupported cfg = true) :
    (∃ m, mkClient cfg = Except.error m) ∧ mkClientCalls cfg = [] := by
  have hne : activeMismatches cfg ≠ [] := by
    rcases hm with h | h | h <;>
      cases hE : mismatchExpected cfg <;>
      cases hD : mismatchDetected cfg <;>
      cases hU : mismatchUnsupported cfg <;>
      simp_all [activeMismatches]
  refine ⟨?_, rfl⟩
  cases hact : activeMismatches cfg with
  | nil => exact absurd hact hne
  | cons m rest => exact ⟨m, by simp [mkClient, hp, hact]⟩

/-- Witness for C4: expected-version mismatch under strict policy. -/
theorem strict_policy_raises_witness :
    (∃ m, mkClient (cfgMismatch (some ("strict"))) = Except.error m) ∧
    mkClientCalls (cfgMismatch (some ("strict"))) = [] :=
  strict_policy_raises (cfgMismatch (some ("strict"))) (by decide)
    (Or.inl (by decide))

/-- C5: under any non-strict policy construction never raises and
proceeds with the originally chosen identifier; under `warn` a warning
is emitted for each firing mismatch check while any other non-strict
policy emits none; and the policy defaults to `warn` when the
environment variable is absent. -/
theorem warn_policy_continues (cfg : ClientConfig)
    (hp : policyOf cfg ≠ "strict") :
    (∃ s, mkClient cfg = Except.ok s ∧
      s.version_key = resolvedVersionKey cfg ∧
      s.warnings =
        (if policyOf cfg = "warn" then activeMismatches cfg else [])) ∧
    (∀ home ev ee, policyOf ⟨home, ev, ee, none⟩ = "warn") := by
  constructor
  · refine ⟨mkClientState cfg
      (if policyOf cfg = "warn" then activeMismatches cfg else []), ?_, rfl, rfl⟩
    simp [mkClient, hp]
  · intro home ev ee
    rfl

/-- Witness for C5: both mismatch checks fire on this input, the
policy is unset hence `warn`, and construction succeeds with the
detected identifier. -/
theorem warn_policy_continues_witness :
    (∃ s, mkClient (cfgMismatch none) = Except.ok s ∧
      s.version_key = resolvedVersionKey (cfgMismatch none) ∧
      s.warnings =
        (if policyOf (cfgMismatch none) = "warn"
         then activeMismatches (cfgMismatch none) else [])) ∧
    (∀ home ev ee, policyOf ⟨home, ev, ee, none⟩ = "warn") :=
  warn_policy_continues (cfgMismatch none) (by decide)

/-- C7: at construction the version identifier is resolved explicit
argument first, then path detection, then the registry default; and
the configuration lookup falls back to the default identifier's
configuration for identifiers missing from the registry. -/
theorem version_resolution_order (cfg : ClientConfig)
    (hp : policyOf cfg ≠ "strict") :
    (∃ s, mkClient cfg = Except.ok s ∧
      (∀ v, cfg.eric_version = some v → v ≠ "" → s.version_key = v) ∧
      (cfg.eric_version = none →
        ∀ d, detect_eric_version cfg.eric_home = some d → d ≠ "" →
          s.version_key = d) ∧
      (cfg.eric_version = none → detect_eric_version cfg.eric_home = none →
        s.version_key = DEFAULT_ERIC_VERSION) ∧
      s.version_config = version_configs_get s.version_key) ∧
    (∀ key, VERSION_CONFIGS.lookup key = none →
      version_configs_get key = version_configs_get DEFAULT_ERIC_VERSION) := by
  constructor
  · refine ⟨mkClientState cfg
      (if policyOf cfg = "warn" then activeMismatches cfg else []), ?_, ?_, ?_, ?_, rfl⟩
    · simp [mkClient, hp]
    · intro v hv hne
      show resolvedVersionKey cfg = v
      rw [resolvedVersionKey, hv]
      simp [pyOrString, hne]
    · intro hv d hd hne
      show resolvedVersionKey cfg = d
      rw [resolvedVersionKey, hv, hd]
      simp [pyOrString, hne]
    · intro hv hd
      show resolvedVersionKey cfg = DEFAULT_ERIC_VERSION
      rw [resolvedVersionKey, hv, hd]
      rfl
  · intro key hk
    rw [version_configs_get, hk, version_configs_get]
    rfl

/-- Witness for C7: an explicit identifier wins over detection from
the path. -/
theorem version_resolution_order_witness :
    ∃ s, mkClient ⟨["opt", "ERiC-41.6.2.0", "Linux-x86_64"],
        some ("40.0.0.0"), none, none⟩ = Except.ok s ∧
      s.version_key = "40.0.0.0" := by
  obtain ⟨⟨s, hs, hv, _, _, _⟩, _⟩ :=
    version_resolution_order
      ⟨["opt", "ERiC-41.6.2.0", "Linux-x86_64"], some ("40.0.0.0"), none, none⟩
      (by decide)
  exact ⟨s, hs, hv ("40.0.0.0") rfl (by decide)⟩

/-- C8 counterexample: with an engine whose shutdown call fails,
closing an Initialized session twice performs the shutdown call twice
(the failing first call leaves `_initialized` set), and the second
call raises again — refuting both the at-most-once and the
never-raises parts of the claim. -/
theorem close_idempotent_cex :
    shutdownCount ((close engShutdownFail stateInit).2.2 ++
      (close engShutdownFail (close engShutdownFail stateInit).2.1).2.2) = 2 ∧
    (close engShutdownFail (close engShutdownFail stateInit).2.1).1 =
      Except.error ⟨3, some ("shutfail")⟩ :=
  ⟨rfl, rfl⟩

/-- C8 (amended): `close()` is idempotent provided the first shutdown
call succeeds: on an Initialized session whose shutdown returns 0 the
first close performs exactly one shutdown call and transitions to
Uninitialized, and a second close is a no-op that performs no call and
never raises; close on an Uninitialized session is always a no-op.
When the first shutdown fails, the session stays Initialized and a
second close repeats the shutdown call. -/
theorem close_idempotent_on_success (eng : Engine) (s : ClientState)
    (hs : s.initialized = true) (hrc : eng.shutdownRc = 0) :
    (close eng s).1 = Except.ok () ∧
    shutdownCount (close eng s).2.2 = 1 ∧
    (close eng s).2.1.initialized = false ∧
    close eng (close eng s).2.1 = (Except.ok (), (close eng s).2.1, []) ∧
    (∀ s2 : ClientState, s2.initialized = false →
      close eng s2 = (Except.ok (), s2, [])) := by
  have hcl : close eng s =
      (Except.ok (),
       ⟨s.detected_eric_version, s.version_key, s.version_config, false,
        s.warnings⟩,
       [FfiCall.shutdownEric 0, FfiCall.getErrorText 0]) := by
    simp [close, check_eric_result, hs, hrc]
  have hnop : ∀ s2 : ClientState, s2.initialized = false →
      close eng s2 = (Except.ok (), s2, []) := by
    intro s2 hs2
    simp [close, hs2]
  refine ⟨?_, ?_, ?_, ?_, hnop⟩
  · rw [hcl]
  · rw [hcl]
    rfl
  · rw [hcl]
  · rw [hcl]
    exact hnop _ rfl

/-- Witness for the amended C8: a double close against the
all-success engine. -/
theorem close_idempotent_on_success_witness :
    close engAllOk (close engAllOk stateInit).2.1 =
      (Except.ok (), (close engAllOk stateInit).2.1, []) :=
  (close_idempotent_on_success engAllOk stateInit rfl rfl).2.2.2.1

end EricPy
